import Mathlib

/-!
Shallow embedding of `blueman/plugins/applet/StatusIcon.py`.

The plugin is a thin coordination layer: it queries external collaborators
(the Bluetooth manager for its adapter list, the plugin host for the loaded
handler plugins, the settings store for one boolean key) and keeps a small
amount of state (`visible`, `visibility_timeout`, `_tooltip_title`,
`_tooltip_text`), forwarding every change to bus signals.

The embedding makes the external collaborators an explicit environment
record `Env` holding the values their queries return, makes the mutable
attributes an explicit state record `St`, and makes every observable side
effect (bus signal emission, `GLib.timeout_add`, `GLib.source_remove`,
launching `blueman-tray`) an element of an effect trace `List Effect`.
`GLib.timeout_add` returns a fresh source id; the embedding passes that id
in as a parameter `freshId`.
-/

namespace StatusIconSpec

/-- Answers of the external collaborators queried by the StatusIcon plugin:
the adapter list of `self.parent.Manager.get_adapters()`, the boolean each
loaded `StatusIconVisibilityHandler` returns from
`on_query_force_status_icon_visibility`, the `(name, priority)` pair each
loaded `StatusIconImplementationProvider` returns from
`on_query_status_icon_implementation`, the optional icon each loaded
`StatusIconProvider` returns from `on_status_icon_query_icon` (in loaded
order), and the `symbolic-status-icons` boolean of the settings store. -/
structure Env where
  adapters : List String
  forceVisibility : List Bool
  implementations : List (String × Int)
  icons : List (Option String)
  symbolicStatusIcons : Bool
deriving Repr, DecidableEq

/-- Mutable attributes of the `StatusIcon` instance: `visible` (class
default `None`), `visibility_timeout` (the GLib source id, `None` when no
timeout is pending), `_tooltip_title` and `_tooltip_text`. -/
structure St where
  visible : Option Bool
  visibility_timeout : Option Nat
  tooltip_title : String
  tooltip_text : String
deriving Repr, DecidableEq

/-- Observable side effects: the four bus signals the plugin emits, the
GLib timeout calls, and launching the tray program. -/
inductive Effect where
  | visibilityChanged (b : Bool)
  | toolTipTitleChanged (s : String)
  | toolTipTextChanged (s : String)
  | iconNameChanged (s : String)
  | timeoutAdd (intervalMs : Nat) (sourceId : Nat)
  | sourceRemove (sourceId : Nat)
  | launch (name : String)
deriving Repr, DecidableEq

/-- Python truthiness of the `visibility_timeout` attribute, as tested by
`elif not self.visibility_timeout:` — falsy when `None` (and when `0`,
which `GLib.timeout_add` never returns). -/
def timeoutTruthy : Option Nat → Bool
  | none => false
  | some n => n != 0

/-- The `if` condition of `query_visibility`:
`self.parent.Manager.get_adapters() or any(plugin.on_query_force_status_icon_visibility() for plugin in ...)`.
A Python list is truthy when non-empty. -/
def visCond (env : Env) : Bool :=
  !env.adapters.isEmpty || env.forceVisibility.any (fun b => b)

/-- `StatusIcon.set_visible`: stores the value and, when `emit` is true,
emits the `VisibilityChanged` bus signal with it. -/
def set_visible (st : St) (v : Bool) (emit : Bool) : St × List Effect :=
  ({ st with visible := some v },
    if emit then [Effect.visibilityChanged v] else [])

/-- `StatusIcon.query_visibility`: show when an adapter is present or some
visibility handler forces visibility; otherwise, when no timeout is
pending, either schedule a 2500 ms hide timeout (`delay_hiding`) or hide
at once. -/
def query_visibility (env : Env) (freshId : Nat) (st : St)
    (delay_hiding : Bool) (emit : Bool) : St × List Effect :=
  if visCond env then
    set_visible st true emit
  else if !timeoutTruthy st.visibility_timeout then
    if delay_hiding then
      ({ st with visibility_timeout := some freshId },
        [Effect.timeoutAdd 2500 freshId])
    else
      set_visible st false emit
  else
    (st, [])

/-- `StatusIcon.on_visibility_timeout`: asserts the timeout is set (`none`
models the assertion failing, which GLib never triggers), removes the
source, clears `visibility_timeout`, re-queries visibility and returns
`False`. -/
def on_visibility_timeout (env : Env) (freshId : Nat) (st : St) :
    Option (St × List Effect × Bool) :=
  match st.visibility_timeout with
  | none => none
  | some tid =>
    let r := query_visibility env freshId { st with visibility_timeout := none } false true
    some (r.1, Effect.sourceRemove tid :: r.2, false)

/-- `StatusIcon.set_tooltip_title`: stores the title and emits
`ToolTipTitleChanged` with it. -/
def set_tooltip_title (st : St) (title : String) : St × List Effect :=
  ({ st with tooltip_title := title }, [Effect.toolTipTitleChanged title])

/-- `StatusIcon.set_tooltip_text`: stores `"" if text is None else text`
and emits `ToolTipTextChanged` with the stored value. -/
def set_tooltip_text (st : St) (text : Option String) : St × List Effect :=
  let t := match text with | none => "" | some s => s
  ({ st with tooltip_text := t }, [Effect.toolTipTextChanged t])

/-- `StatusIcon._get_icon_name`: the default name `"blueman-tray"` is
overwritten by each non-`None` provider answer in loaded order; every
`"-symbolic"` occurrence is removed, and `"-symbolic"` is appended when
the `symbolic-status-icons` setting is true. -/
def _get_icon_name (env : Env) : String :=
  let name := env.icons.foldl
    (fun acc icon => match icon with | some i => i | none => acc) "blueman-tray"
  let name := name.replace "-symbolic" ""
  if env.symbolicStatusIcons then name ++ "-symbolic" else name

/-- `StatusIcon.icon_should_change`: emits `IconNameChanged` with the
recomputed icon name, then re-queries visibility. -/
def icon_should_change (env : Env) (freshId : Nat) (st : St) : St × List Effect :=
  let r := query_visibility env freshId st false true
  (r.1, Effect.iconNameChanged (_get_icon_name env) :: r.2)

/-- `StatusIcon.on_symbolic_config_change`: handler of the
`changed::symbolic-status-icons` settings signal; `env` carries the new
configuration. It just calls `icon_should_change`. -/
def on_symbolic_config_change (env : Env) (freshId : Nat) (st : St) : St × List Effect :=
  icon_should_change env freshId st

/-- `StatusIcon.on_adapter_added`: re-queries visibility (the path argument
is unused). -/
def on_adapter_added (env : Env) (freshId : Nat) (st : St) : St × List Effect :=
  query_visibility env freshId st false true

/-- `StatusIcon.on_adapter_removed`: re-queries visibility. -/
def on_adapter_removed (env : Env) (freshId : Nat) (st : St) : St × List Effect :=
  query_visibility env freshId st false true

/-- `StatusIcon.on_manager_state_changed`: re-queries visibility, then when
the new state is true launches `blueman-tray`. -/
def on_manager_state_changed (env : Env) (freshId : Nat) (st : St)
    (state : Bool) : St × List Effect :=
  let r := query_visibility env freshId st false true
  (r.1, r.2 ++ if state then [Effect.launch "blueman-tray"] else [])

/-- `StatusIcon._get_status_icon_implementations`: the provider answers
sorted by priority, descending (`sorted(..., key=lambda p: p[1],
reverse=True)` is a stable descending sort, embedded as a stable merge
sort with the order `b.2 ≤ a.2`), keeping only the names, with
`"GtkStatusIcon"` appended. -/
def _get_status_icon_implementations (env : Env) : List String :=
  ((env.implementations.mergeSort (fun a b => decide (b.2 ≤ a.2))).map Prod.fst)
    ++ ["GtkStatusIcon"]

/-- The `GetVisibility` bus method: `lambda: self.visible`. -/
def GetVisibility (st : St) : Option Bool := st.visible

/-- The `GetToolTipTitle` bus method: `lambda: self._tooltip_title`. -/
def GetToolTipTitle (st : St) : String := st.tooltip_title

/-- The `GetToolTipText` bus method: `lambda: self._tooltip_text`. -/
def GetToolTipText (st : St) : String := st.tooltip_text

/-- State of the instance inside `on_load` just before the call
`self.query_visibility(emit=False)`: the class attributes `visible = None`
and `visibility_timeout = None`, title `_("Bluetooth Enabled")` and the
empty tooltip text. -/
def preLoadSt : St :=
  { visible := none, visibility_timeout := none,
    tooltip_title := "Bluetooth Enabled", tooltip_text := "" }

/-- `StatusIcon.on_load` up to the point the bus methods are registered:
sets the initial tooltip fields and runs `query_visibility(emit=False)`. -/
def on_load (env : Env) (freshId : Nat) : St × List Effect :=
  query_visibility env freshId preLoadSt false false

/-- Operations on a `StatusIcon` instance: the externally reachable calls
that modify state. Environment-reading operations carry the environment
observed at that moment and the fresh GLib source id a `timeout_add` would
return. -/
inductive Op where
  | setVisibleOp (v : Bool) (emit : Bool)
  | setTooltipTitleOp (t : String)
  | setTooltipTextOp (t : Option String)
  | queryVisibilityOp (env : Env) (freshId : Nat) (delay emit : Bool)
  | visibilityTimeoutOp (env : Env) (freshId : Nat)
  | adapterAddedOp (env : Env) (freshId : Nat)
  | adapterRemovedOp (env : Env) (freshId : Nat)
  | managerStateChangedOp (env : Env) (freshId : Nat) (state : Bool)
  | symbolicConfigChangeOp (env : Env) (freshId : Nat)
deriving Repr, DecidableEq

/-- One operation applied to a state. A `visibilityTimeoutOp` on a state
with no pending timeout would fail the assertion in
`on_visibility_timeout`; GLib never fires an unscheduled timeout, so the
embedding leaves the state unchanged there. -/
def step (st : St) : Op → St × List Effect
  | .setVisibleOp v e => set_visible st v e
  | .setTooltipTitleOp t => set_tooltip_title st t
  | .setTooltipTextOp t => set_tooltip_text st t
  | .queryVisibilityOp env f d e => query_visibility env f st d e
  | .visibilityTimeoutOp env f =>
      match on_visibility_timeout env f st with
      | none => (st, [])
      | some (st2, effs, _) => (st2, effs)
  | .adapterAddedOp env f => on_adapter_added env f st
  | .adapterRemovedOp env f => on_adapter_removed env f st
  | .managerStateChangedOp env f s => on_manager_state_changed env f st s
  | .symbolicConfigChangeOp env f => on_symbolic_config_change env f st

/-- Run a sequence of operations, concatenating the effect traces. -/
def runOps (st : St) : List Op → St × List Effect
  | [] => (st, [])
  | op :: ops =>
    let r := step st op
    let r2 := runOps r.1 ops
    (r2.1, r.2 ++ r2.2)

/-- The values `set_visible` is called with during a single
`query_visibility` call, read off from the branch structure of the
source: `[true]` when the show condition holds, `[false]` when no timeout
is pending and hiding is not delayed, `[]` otherwise. -/
def query_visibility_visCalls (env : Env) (st : St) (delay_hiding : Bool) : List Bool :=
  if visCond env then [true]
  else if !timeoutTruthy st.visibility_timeout && !delay_hiding then [false]
  else []

/-- The values `set_visible` is called with during one operation. -/
def stepVisCalls (st : St) : Op → List Bool
  | .setVisibleOp v _ => [v]
  | .queryVisibilityOp env _ d _ => query_visibility_visCalls env st d
  | .visibilityTimeoutOp env _ =>
      match st.visibility_timeout with
      | none => []
      | some _ => query_visibility_visCalls env { st with visibility_timeout := none } false
  | .adapterAddedOp env _ => query_visibility_visCalls env st false
  | .adapterRemovedOp env _ => query_visibility_visCalls env st false
  | .managerStateChangedOp env _ _ => query_visibility_visCalls env st false
  | .symbolicConfigChangeOp env _ => query_visibility_visCalls env st false
  | _ => []

/-- The values `set_visible` is called with during a sequence of
operations. -/
def runVisCalls (st : St) : List Op → List Bool
  | [] => []
  | op :: ops => stepVisCalls st op ++ runVisCalls (step st op).1 ops

/-- The titles passed to `set_tooltip_title` in a sequence of operations. -/
def titleCalls (ops : List Op) : List String :=
  ops.filterMap fun op => match op with
    | .setTooltipTitleOp t => some t
    | _ => none

/-- The texts stored by `set_tooltip_text` in a sequence of operations
(`None` mapped to the empty string, as the source does). -/
def textCalls (ops : List Op) : List String :=
  ops.filterMap fun op => match op with
    | .setTooltipTextOp t => some (match t with | none => "" | some s => s)
    | _ => none

/-- The last element of `xs`, or `d` when `xs` is empty. -/
def lastOr (xs : List String) (d : String) : String :=
  xs.foldl (fun _ v => v) d

/-- `some` of the last element of `calls`, or `d` when there was no call. -/
def lastVisOr (calls : List Bool) (d : Option Bool) : Option Bool :=
  calls.foldl (fun _ v => some v) d

/-- Bluetooth events forwarded to `query_visibility`: the handlers
`on_adapter_added`, `on_adapter_removed` and `on_manager_state_changed`.
Each carries the environment observed when it fires. -/
inductive BtEvent where
  | adapterAdded (env : Env) (freshId : Nat)
  | adapterRemoved (env : Env) (freshId : Nat)
  | managerStateChanged (env : Env) (freshId : Nat) (state : Bool)
deriving Repr, DecidableEq

/-- The environment observed by an event. -/
def btEventEnv : BtEvent → Env
  | .adapterAdded env _ => env
  | .adapterRemoved env _ => env
  | .managerStateChanged env _ _ => env

/-- The fresh GLib source id available to an event. -/
def btEventFresh : BtEvent → Nat
  | .adapterAdded _ f => f
  | .adapterRemoved _ f => f
  | .managerStateChanged _ f _ => f

/-- Dispatch one Bluetooth event to its handler. -/
def runBtEvent (st : St) : BtEvent → St × List Effect
  | .adapterAdded env f => on_adapter_added env f st
  | .adapterRemoved env f => on_adapter_removed env f st
  | .managerStateChanged env f s => on_manager_state_changed env f st s

/-- Run a sequence of Bluetooth events. -/
def runBtEvents (st : St) : List BtEvent → St
  | [] => st
  | ev :: evs => runBtEvents (runBtEvent st ev).1 evs

/-- Sample environment with one adapter present. -/
def envAdapter : Env :=
  { adapters := ["hci0"], forceVisibility := [], implementations := [],
    icons := [], symbolicStatusIcons := false }

/-- Sample environment with no adapter and no plugins loaded. -/
def envEmpty : Env :=
  { adapters := [], forceVisibility := [], implementations := [],
    icons := [], symbolicStatusIcons := false }

/-- Sample state with a pending hide timeout of source id 9. -/
def stPending : St :=
  { visible := some true, visibility_timeout := some 9,
    tooltip_title := "Bluetooth Enabled", tooltip_text := "" }

theorem visCond_iff (env : Env) :
    visCond env = true ↔ (env.adapters ≠ [] ∨ true ∈ env.forceVisibility) := by
  simp [visCond, List.any_eq_true, List.isEmpty_iff]

theorem query_visibility_fst_tooltip_title (env : Env) (f : Nat) (st : St) (d e : Bool) :
    (query_visibility env f st d e).1.tooltip_title = st.tooltip_title := by
  unfold query_visibility set_visible
  split_ifs <;> rfl

theorem query_visibility_fst_tooltip_text (env : Env) (f : Nat) (st : St) (d e : Bool) :
    (query_visibility env f st d e).1.tooltip_text = st.tooltip_text := by
  unfold query_visibility set_visible
  split_ifs <;> rfl

theorem query_visibility_fst_visible (env : Env) (f : Nat) (st : St) (d e : Bool) :
    (query_visibility env f st d e).1.visible
      = lastVisOr (query_visibility_visCalls env st d) st.visible := by
  cases hc : visCond env <;> cases ht : timeoutTruthy st.visibility_timeout <;> cases d <;>
    simp [query_visibility, query_visibility_visCalls, set_visible, lastVisOr, hc, ht]

/-- C1: for every state, if at least one Bluetooth adapter is present or at
least one loaded StatusIconVisibilityHandler returns true from
`on_query_force_status_icon_visibility`, then `query_visibility` sets
`visible` to true; otherwise, when no hide timeout is pending and
`delay_hiding` is false, it sets `visible` to false. -/
theorem query_visibility_decision (env : Env) (f : Nat) (st : St) (d e : Bool) :
    ((env.adapters ≠ [] ∨ true ∈ env.forceVisibility) →
      (query_visibility env f st d e).1.visible = some true) ∧
    (env.adapters = [] → true ∉ env.forceVisibility →
      timeoutTruthy st.visibility_timeout = false → d = false →
      (query_visibility env f st d e).1.visible = some false) := by
  constructor
  · intro h
    have hc : visCond env = true := (visCond_iff env).mpr h
    simp [query_visibility, hc, set_visible]
  · intro h1 h2 ht hd
    have hc : visCond env = false := by
      cases hcv : visCond env with
      | false => rfl
      | true =>
        rcases (visCond_iff env).mp hcv with h | h
        · exact absurd h1 h
        · exact absurd h h2
    subst hd
    simp [query_visibility, hc, ht, set_visible]

/-- Witness for C1 at two concrete inputs: an environment with one adapter
shows, an empty environment hides. -/
theorem query_visibility_decision_witness :
    (query_visibility envAdapter 1 preLoadSt false true).1.visible = some true ∧
    (query_visibility envEmpty 1 preLoadSt false true).1.visible = some false :=
  ⟨(query_visibility_decision envAdapter 1 preLoadSt false true).1 (Or.inl (by decide)),
    (query_visibility_decision envEmpty 1 preLoadSt false true).2 rfl (by decide) rfl rfl⟩

/-- C2: the list returned by `_get_status_icon_implementations` lists the
plugin-declared implementation names in order of non-increasing declared
priority, obtained from a single sort of the `(name, priority)` pairs
(followed by the unconditional fallback element). -/
theorem implementations_sorted_desc (env : Env) :
    ∃ l : List (String × Int),
      l.Perm env.implementations ∧
      l.Pairwise (fun a b => b.2 ≤ a.2) ∧
      _get_status_icon_implementations env = l.map Prod.fst ++ ["GtkStatusIcon"] := by
  refine ⟨env.implementations.mergeSort (fun a b => decide (b.2 ≤ a.2)),
    List.mergeSort_perm _ _, ?_, rfl⟩
  have h := @List.sorted_mergeSort (String × Int) (fun a b => decide (b.2 ≤ a.2))
    (fun a b c hab hbc => by
      simp only [decide_eq_true_eq] at hab hbc ⊢
      omega)
    (fun a b => by
      simp only [Bool.or_eq_true, decide_eq_true_eq]
      omega)
    env.implementations
  exact h.imp (fun hab => by simpa using hab)

/-- C3: the icon name returned by `_get_icon_name` is the icon of the last
provider answering non-`None` (or `"blueman-tray"` when all answer
`None`), with every `"-symbolic"` substring removed and the `"-symbolic"`
suffix appended exactly when the `symbolic-status-icons` setting is
true. -/
theorem icon_name_spec (env : Env) :
    _get_icon_name env =
      (if env.symbolicStatusIcons then
        ((((env.icons.filterMap id).getLast?).getD "blueman-tray").replace "-symbolic" "")
          ++ "-symbolic"
      else
        (((env.icons.filterMap id).getLast?).getD "blueman-tray").replace "-symbolic" "") := by
  have key : ∀ (l : List (Option String)) (acc : String),
      l.foldl (fun acc icon => match icon with | some i => i | none => acc) acc
        = ((l.filterMap id).getLast?).getD acc := by
    intro l
    induction l with
    | nil => intro acc; rfl
    | cons o l ih =>
      intro acc
      cases o with
      | none => simpa [List.filterMap_cons] using ih acc
      | some i =>
        simp [List.filterMap_cons, ih i, List.getLast?_cons]
  unfold _get_icon_name
  rw [key env.icons "blueman-tray"]

/-- C4: every state change is forwarded to a bus signal carrying the new
value: `set_tooltip_title` emits `ToolTipTitleChanged` with the title,
`set_tooltip_text` emits `ToolTipTextChanged` with the stored text, and
`set_visible` with `emit` emits `VisibilityChanged` with the value. -/
theorem state_changes_emit_signals (st : St) (title : String) (text : Option String) (v : Bool) :
    (set_tooltip_title st title).2 = [Effect.toolTipTitleChanged title] ∧
    (set_tooltip_text st text).2
      = [Effect.toolTipTextChanged (set_tooltip_text st text).1.tooltip_text] ∧
    (set_visible st v true).2 = [Effect.visibilityChanged v] := by
  refine ⟨rfl, ?_, rfl⟩
  cases text <;> rfl

/-- C7: the handler of a `symbolic-status-icons` configuration change
emits `IconNameChanged` carrying the icon name recomputed by
`_get_icon_name` under the new configuration, and then re-queries
visibility. -/
theorem symbolic_config_change_emits_icon_name (env : Env) (f : Nat) (st : St) :
    (on_symbolic_config_change env f st).2
      = Effect.iconNameChanged (_get_icon_name env) :: (query_visibility env f st false true).2 ∧
    (on_symbolic_config_change env f st).1 = (query_visibility env f st false true).1 :=
  ⟨rfl, rfl⟩

/-- C8: for every collection of loaded plugins, the empty one included,
`_get_status_icon_implementations` returns a non-empty list whose last
element is the fallback `"GtkStatusIcon"`, appended unconditionally after
the sorted plugin-declared implementations. -/
theorem implementations_end_with_fallback (env : Env) :
    _get_status_icon_implementations env ≠ [] ∧
    (_get_status_icon_implementations env).getLast? = some "GtkStatusIcon" ∧
    (_get_status_icon_implementations env).dropLast
      = (env.implementations.mergeSort (fun a b => decide (b.2 ≤ a.2))).map Prod.fst ∧
    (env.implementations = [] → _get_status_icon_implementations env = ["GtkStatusIcon"]) := by
  refine ⟨by simp [_get_status_icon_implementations], ?_, ?_, ?_⟩
  · simp [_get_status_icon_implementations, List.getLast?_concat]
  · simp [_get_status_icon_implementations, List.dropLast_concat]
  · intro h
    simp [_get_status_icon_implementations, h]

/-- Witness for C8 at the empty plugin collection. -/
theorem implementations_end_with_fallback_witness :
    _get_status_icon_implementations envEmpty = ["GtkStatusIcon"] :=
  (implementations_end_with_fallback envEmpty).2.2.2 rfl

/-- C9: `set_tooltip_text` maps `None` to the empty string: the stored
text is the empty string, the emitted `ToolTipTextChanged` signal carries
the empty string, and in general `GetToolTipText` returns the stored
(never null) string. -/
theorem tooltip_text_none_maps_to_empty (st : St) (t : Option String) :
    (set_tooltip_text st none).1.tooltip_text = "" ∧
    (set_tooltip_text st none).2 = [Effect.toolTipTextChanged ""] ∧
    GetToolTipText (set_tooltip_text st t).1 = t.getD "" := by
  refine ⟨rfl, rfl, ?_⟩
  cases t <;> rfl

theorem step_visibilityTimeout_fst (env : Env) (f : Nat) (st : St) :
    (step st (Op.visibilityTimeoutOp env f)).1
      = (match st.visibility_timeout with
        | none => st
        | some _ => (query_visibility env f { st with visibility_timeout := none } false true).1) := by
  simp only [step, on_visibility_timeout]
  cases st.visibility_timeout <;> rfl

theorem step_fst_tooltip_title (st : St) (op : Op) :
    (step st op).1.tooltip_title =
      (match op with
      | .setTooltipTitleOp t => t
      | _ => st.tooltip_title) := by
  cases op with
  | setVisibleOp v e => rfl
  | setTooltipTitleOp t => rfl
  | setTooltipTextOp t => cases t <;> rfl
  | queryVisibilityOp env f d e => exact query_visibility_fst_tooltip_title env f st d e
  | visibilityTimeoutOp env f =>
    rw [show (step st (Op.visibilityTimeoutOp env f)).1.tooltip_title
      = ((step st (Op.visibilityTimeoutOp env f)).1).tooltip_title from rfl,
      step_visibilityTimeout_fst]
    cases st.visibility_timeout with
    | none => rfl
    | some tid => exact query_visibility_fst_tooltip_title env f _ false true
  | adapterAddedOp env f => exact query_visibility_fst_tooltip_title env f st false true
  | adapterRemovedOp env f => exact query_visibility_fst_tooltip_title env f st false true
  | managerStateChangedOp env f s => exact query_visibility_fst_tooltip_title env f st false true
  | symbolicConfigChangeOp env f => exact query_visibility_fst_tooltip_title env f st false true

theorem step_fst_tooltip_text (st : St) (op : Op) :
    (step st op).1.tooltip_text =
      (match op with
      | .setTooltipTextOp t => (match t with | none => "" | some s => s)
      | _ => st.tooltip_text) := by
  cases op with
  | setVisibleOp v e => rfl
  | setTooltipTitleOp t => rfl
  | setTooltipTextOp t => cases t <;> rfl
  | queryVisibilityOp env f d e => exact query_visibility_fst_tooltip_text env f st d e
  | visibilityTimeoutOp env f =>
    rw [step_visibilityTimeout_fst]
    cases st.visibility_timeout with
    | none => rfl
    | some tid => exact query_visibility_fst_tooltip_text env f _ false true
  | adapterAddedOp env f => exact query_visibility_fst_tooltip_text env f st false true
  | adapterRemovedOp env f => exact query_visibility_fst_tooltip_text env f st false true
  | managerStateChangedOp env f s => exact query_visibility_fst_tooltip_text env f st false true
  | symbolicConfigChangeOp env f => exact query_visibility_fst_tooltip_text env f st false true

theorem step_fst_visible (st : St) (op : Op) :
    (step st op).1.visible = lastVisOr (stepVisCalls st op) st.visible := by
  cases op with
  | setVisibleOp v e => rfl
  | setTooltipTitleOp t => rfl
  | setTooltipTextOp t => cases t <;> rfl
  | queryVisibilityOp env f d e => exact query_visibility_fst_visible env f st d e
  | visibilityTimeoutOp env f =>
    rw [step_visibilityTimeout_fst]
    cases h : st.visibility_timeout with
    | none => simp [stepVisCalls, h, lastVisOr]
    | some tid =>
      simp only [stepVisCalls, h]
      exact query_visibility_fst_visible env f _ false true
  | adapterAddedOp env f => exact query_visibility_fst_visible env f st false true
  | adapterRemovedOp env f => exact query_visibility_fst_visible env f st false true
  | managerStateChangedOp env f s => exact query_visibility_fst_visible env f st false true
  | symbolicConfigChangeOp env f => exact query_visibility_fst_visible env f st false true

theorem lastOr_append (xs ys : List String) (d : String) :
    lastOr (xs ++ ys) d = lastOr ys (lastOr xs d) := by
  simp [lastOr, List.foldl_append]

theorem lastVisOr_append (xs ys : List Bool) (d : Option Bool) :
    lastVisOr (xs ++ ys) d = lastVisOr ys (lastVisOr xs d) := by
  simp [lastVisOr, List.foldl_append]

theorem titleCalls_cons (op : Op) (ops : List Op) :
    titleCalls (op :: ops)
      = (match op with | Op.setTooltipTitleOp t => [t] | _ => []) ++ titleCalls ops := by
  cases op <;> simp [titleCalls]

theorem textCalls_cons (op : Op) (ops : List Op) :
    textCalls (op :: ops)
      = (match op with
        | Op.setTooltipTextOp t => [(match t with | none => "" | some s => s)]
        | _ => []) ++ textCalls ops := by
  cases op <;> simp [textCalls]

theorem runOps_fst_tooltip_title (ops : List Op) : ∀ st0 : St,
    (runOps st0 ops).1.tooltip_title = lastOr (titleCalls ops) st0.tooltip_title := by
  induction ops with
  | nil => intro st0; rfl
  | cons op ops ih =>
    intro st0
    have h1 : (runOps st0 (op :: ops)).1 = (runOps (step st0 op).1 ops).1 := rfl
    rw [h1, ih, titleCalls_cons, lastOr_append]
    congr 1
    rw [step_fst_tooltip_title]
    cases op <;> rfl

theorem runOps_fst_tooltip_text (ops : List Op) : ∀ st0 : St,
    (runOps st0 ops).1.tooltip_text = lastOr (textCalls ops) st0.tooltip_text := by
  induction ops with
  | nil => intro st0; rfl
  | cons op ops ih =>
    intro st0
    have h1 : (runOps st0 (op :: ops)).1 = (runOps (step st0 op).1 ops).1 := rfl
    rw [h1, ih, textCalls_cons, lastOr_append]
    congr 1
    rw [step_fst_tooltip_text]
    cases op <;> rfl

theorem runOps_fst_visible (ops : List Op) : ∀ st0 : St,
    (runOps st0 ops).1.visible = lastVisOr (runVisCalls st0 ops) st0.visible := by
  induction ops with
  | nil => intro st0; rfl
  | cons op ops ih =>
    intro st0
    have h1 : (runOps st0 (op :: ops)).1 = (runOps (step st0 op).1 ops).1 := rfl
    have h2 : runVisCalls st0 (op :: ops)
      = stepVisCalls st0 op ++ runVisCalls (step st0 op).1 ops := rfl
    rw [h1, ih, h2, lastVisOr_append, step_fst_visible]

/-- C5: the bus query methods report exactly the stored state. After any
sequence of operations, `GetToolTipTitle` returns the title passed to the
last `set_tooltip_title` call, `GetToolTipText` the text stored by the
last `set_tooltip_text` call, and `GetVisibility` the value passed to the
last `set_visible` call (incl. the calls made inside `query_visibility`);
each falls back to the starting value when no such call happened, and at
load time the title is `"Bluetooth Enabled"` and the text is empty. -/
theorem getters_report_stored_state (st0 : St) (ops : List Op) :
    GetToolTipTitle (runOps st0 ops).1 = lastOr (titleCalls ops) st0.tooltip_title ∧
    GetToolTipText (runOps st0 ops).1 = lastOr (textCalls ops) st0.tooltip_text ∧
    GetVisibility (runOps st0 ops).1 = lastVisOr (runVisCalls st0 ops) st0.visible ∧
    preLoadSt.tooltip_title = "Bluetooth Enabled" ∧ preLoadSt.tooltip_text = "" :=
  ⟨runOps_fst_tooltip_title ops st0, runOps_fst_tooltip_text ops st0,
    runOps_fst_visible ops st0, rfl, rfl⟩

theorem runBtEvent_fst (st : St) (ev : BtEvent) :
    (runBtEvent st ev).1 = (query_visibility (btEventEnv ev) (btEventFresh ev) st false true).1 := by
  cases ev <;> rfl

theorem qv_requery_post (env : Env) (f : Nat) (st : St) :
    timeoutTruthy (query_visibility env f st false true).1.visibility_timeout = false →
    ((query_visibility env f st false true).1.visible = some true ↔ visCond env = true) := by
  cases hc : visCond env <;> cases ht : timeoutTruthy st.visibility_timeout <;>
    simp [query_visibility, set_visible, hc, ht]

/-- C6: every adapter-added, adapter-removed and manager-state-changed
event re-runs `query_visibility`, so in every state reached through a
(non-empty) sequence of these events with no hide timeout pending,
`visible` is true exactly when the last observed environment has an
adapter present or some loaded handler forces visibility. -/
theorem events_track_bluetooth_state (st0 : St) (evs : List BtEvent) (hne : evs ≠ []) :
    timeoutTruthy (runBtEvents st0 evs).visibility_timeout = false →
    ((runBtEvents st0 evs).visible = some true
      ↔ visCond (btEventEnv (evs.getLast hne)) = true) := by
  induction evs generalizing st0 with
  | nil => exact absurd rfl hne
  | cons ev evs ih =>
    cases evs with
    | nil =>
      have h1 : runBtEvents st0 [ev] = (runBtEvent st0 ev).1 := rfl
      have h2 : [ev].getLast hne = ev := rfl
      rw [h1, runBtEvent_fst, h2]
      exact qv_requery_post _ _ _
    | cons ev2 evs2 =>
      have h1 : runBtEvents st0 (ev :: ev2 :: evs2)
        = runBtEvents (runBtEvent st0 ev).1 (ev2 :: evs2) := rfl
      have h2 : (ev :: ev2 :: evs2).getLast hne
        = (ev2 :: evs2).getLast (List.cons_ne_nil ev2 evs2) := rfl
      rw [h1, h2]
      exact ih (runBtEvent st0 ev).1 (List.cons_ne_nil ev2 evs2)

/-- Witness for C6: one adapter-added event with an adapter present makes
the icon visible. -/
theorem events_track_bluetooth_state_witness :
    (runBtEvents preLoadSt [BtEvent.adapterAdded envAdapter 1]).visible = some true := by
  have h := events_track_bluetooth_state preLoadSt [BtEvent.adapterAdded envAdapter 1] (by decide)
  exact (h (by decide)).mpr (by decide)

/-- C10: hiding is delayed, never doubled. With the hide condition and
`delay_hiding`, `query_visibility` keeps `visible` and schedules a single
2500 ms timeout; while a timeout is pending, `query_visibility` never
newly hides, never changes the pending timeout and never schedules
another one; when the timeout fires, `on_visibility_timeout` removes the
source, clears `visibility_timeout`, re-queries visibility once and
returns false. -/
theorem hide_delayed_never_doubled (env : Env) (f : Nat) (st : St) (d e : Bool) :
    (visCond env = false → timeoutTruthy st.visibility_timeout = false →
      (query_visibility env f st true e).1.visible = st.visible ∧
      (query_visibility env f st true e).1.visibility_timeout = some f ∧
      (query_visibility env f st true e).2 = [Effect.timeoutAdd 2500 f]) ∧
    (timeoutTruthy st.visibility_timeout = true →
      ((query_visibility env f st d e).1.visible = some false → st.visible = some false) ∧
      (query_visibility env f st d e).1.visibility_timeout = st.visibility_timeout ∧
      ∀ ms sid, Effect.timeoutAdd ms sid ∉ (query_visibility env f st d e).2) ∧
    (∀ tid, st.visibility_timeout = some tid →
      on_visibility_timeout env f st =
        some ((query_visibility env f { st with visibility_timeout := none } false true).1,
          Effect.sourceRemove tid ::
            (query_visibility env f { st with visibility_timeout := none } false true).2,
          false)) := by
  refine ⟨?_, ?_, ?_⟩
  · intro h1 h2
    refine ⟨?_, ?_, ?_⟩ <;> simp [query_visibility, h1, h2]
  · intro h
    cases hc : visCond env with
    | true =>
      refine ⟨?_, ?_, ?_⟩
      · intro hv
        simp [query_visibility, hc, set_visible] at hv
      · simp [query_visibility, hc, set_visible]
      · intro ms sid
        cases e <;> simp [query_visibility, hc, set_visible]
    | false =>
      refine ⟨?_, ?_, ?_⟩ <;> simp [query_visibility, hc, h]
  · intro tid htid
    simp only [on_visibility_timeout]
    rw [htid]

/-- Witness for C10 at concrete inputs: scheduling at source id 7,
leaving the pending timeout 9 untouched, and firing the timeout 9. -/
theorem hide_delayed_never_doubled_witness :
    (query_visibility envEmpty 7 preLoadSt true true).1.visibility_timeout = some 7 ∧
    (query_visibility envEmpty 3 stPending false true).1.visibility_timeout = some 9 ∧
    on_visibility_timeout envEmpty 4 stPending =
      some ((query_visibility envEmpty 4 { stPending with visibility_timeout := none } false true).1,
        Effect.sourceRemove 9 ::
          (query_visibility envEmpty 4 { stPending with visibility_timeout := none } false true).2,
        false) := by
  refine ⟨?_, ?_, ?_⟩
  · exact ((hide_delayed_never_doubled envEmpty 7 preLoadSt true true).1 rfl rfl).2.1
  · exact ((hide_delayed_never_doubled envEmpty 3 stPending false true).2.1 rfl).2.1
  · exact (hide_delayed_never_doubled envEmpty 4 stPending false true).2.2 9 rfl

end StatusIconSpec
